import Mathlib

/-!
Verification development for the fastify-plugin-gracely repository.

The repository consists of a single TypeScript source file, src/index.ts.
We shallowly embed its runtime-value semantics:

* environment variables become an explicit record of optional strings
  (a Node process environment entry is either absent, `Option.none`, or a
  string value);
* the file system becomes a function from paths to optional contents,
  where `Option.none` stands for any read failure (missing file,
  permission error, any I O failure swallowed by the catch block);
* runtime values of the TypeScript union type for the gracely runtime are
  embedded as plain strings, because at the JavaScript level they are
  strings and unchecked values can flow through;
* the plugin construction function becomes a pure function from options,
  environment and file system to a plugin state, wrapped in `Except` to
  mirror the fastify `done(err?)` completion protocol.

Behaviour of the external graceful-server dependency (lifecycle state
machine, probe route registration) is not part of the repository source;
where a claim depends on it, it is modelled from the specification and
marked as such in the doc comment of the definition.
-/

namespace Gracely

/-- The process environment entries read by the plugin: the two
kubernetes-related variables consulted during automatic detection.
An entry is `Option.none` when the variable is undefined. -/
structure ProcessEnv where
  kubernetesServiceHost : Option String
  k8s : Option String
deriving Repr, DecidableEq

/-- JavaScript truthiness of a possibly-undefined string: an undefined
variable and the empty string are falsy, every other string is truthy.
This is the semantics of writing the expression in an if condition. -/
def envTruthy : Option String → Bool
  | Option.none => false
  | Option.some v => v != ""

/-- The file system as seen by the one `readFileSync` call:
maps a path to its contents, or to `Option.none` when reading fails. -/
def FileSystem : Type := String → Option String

/-- Boolean test that `pat` occurs as a contiguous sublist of a list of
characters; used to embed the substring semantics of the regular
expression test in the detection function. -/
def hasSubList (pat : List Char) : List Char → Bool
  | [] => pat.isPrefixOf ([] : List Char)
  | c :: rest => pat.isPrefixOf (c :: rest) || hasSubList pat rest

/-- The four alternatives of the regular expression
`docker|kubepods|containerd|libpod` from src/index.ts line 113. -/
def containerSignatures : List String :=
  ["docker", "kubepods", "containerd", "libpod"]

/-- Embeds the test of the case-insensitive regular expression
`/docker|kubepods|containerd|libpod/i` against the file contents:
since every alternative is a plain lowercase word, the test holds
exactly when some alternative is a substring of the lowercased text. -/
def matchesContainerSignature (content : String) : Bool :=
  let lower := content.toList.map Char.toLower
  containerSignatures.any (fun sig => hasSubList sig.toList lower)

/-- Result of running detection: the returned runtime string together
with a flag recording whether the container-marker file was read
(whether `readFileSync` was invoked at all). -/
structure DetectionOutcome where
  result : String
  fileRead : Bool
deriving Repr, DecidableEq

/-- Embedding of `detectGracelyRuntime` from src/index.ts lines 103-122.
Step 1 returns "kubernetes" when `KUBERNETES_SERVICE_HOST` is truthy or
`K8S` is exactly the string "true". Step 2 runs only when the configured
container endpoint is a truthy (non-empty) string: it reads the file,
returns "container" on a signature match, and swallows read failures.
Otherwise the function returns "local". -/
def detectGracelyRuntime (containerEndpoint : String) (env : ProcessEnv)
    (fs : FileSystem) : DetectionOutcome :=
  if envTruthy env.kubernetesServiceHost || env.k8s == Option.some "true" then
    { result := "kubernetes", fileRead := false }
  else if containerEndpoint != "" then
    match fs containerEndpoint with
    | Option.some content =>
      if matchesContainerSignature content then
        { result := "container", fileRead := true }
      else
        { result := "local", fileRead := true }
    | Option.none => { result := "local", fileRead := true }
  else
    { result := "local", fileRead := false }

/-- Embedding of the `FastifyGracelyOptions` interface from src/index.ts
lines 26-84. Every option is optional; callbacks are embedded as flags
recording whether a function was supplied, since the plugin only ever
tests `typeof opts.x` and invokes the callback. Runtime is a plain string
because unchecked JavaScript values can carry any string. -/
structure FastifyGracelyOptions where
  runtime : Option String
  timeout : Option Int
  livenessEndpoint : Option String
  readinessEndpoint : Option String
  containerEndpoint : Option String
  ready : Bool
  close : Bool
  error : Bool
  closing : Bool
deriving Repr, DecidableEq

/-- Modelled from the spec: the lifecycle states of the graceful-server
state machine, section 3 of the specification. The state machine itself
lives in the external graceful-server dependency, not in this repository
source. -/
inductive Lifecycle where
  | STARTING
  | READY
  | SHUTTING_DOWN
  | SHUTDOWN
deriving Repr, DecidableEq

/-- The state assembled by the plugin function: the resolved runtime, the
graceful-server configuration it passes down, the registered probe
routes, whether detection read the marker file, the lifecycle state, and
the record of user error-callback invocations (each entry is the
error-or-none value the callback received). -/
structure PluginState where
  gracelyRuntime : String
  gracefulTimeout : Int
  closePromises : Nat
  probeRoutes : List String
  detectionFileRead : Bool
  lifecycle : Lifecycle
  hasErrorCallback : Bool
  errorCallbackCalls : List (Option String)
deriving Repr, DecidableEq

/-- Modelled from the spec: graceful-server registers the two HTTP probe
routes exactly when its health-check and kubernetes flags are set, at the
configured liveness and readiness paths (specification section 4.3; the
registration code lives in the external dependency). -/
def gracefulServerRoutes (healthCheck : Bool) (livenessEndpoint readinessEndpoint : String) :
    List String :=
  if healthCheck then [livenessEndpoint, readinessEndpoint] else []

/-- Embedding of the body of the plugin function, src/index.ts lines
137-207: destructures the options with their defaults, resolves the
runtime (running detection only in "auto" mode), configures the
graceful server, and builds the shared decorated state. The lifecycle
starts in STARTING and no callback has been invoked yet. -/
def pluginState (opts : FastifyGracelyOptions) (env : ProcessEnv) (fs : FileSystem) :
    PluginState :=
  let runtime := opts.runtime.getD "auto"
  let timeout := opts.timeout.getD 10000
  let livenessEndpoint := opts.livenessEndpoint.getD "/live"
  let readinessEndpoint := opts.readinessEndpoint.getD "/ready"
  let containerEndpoint := opts.containerEndpoint.getD "/proc/1/cgroup"
  let det :=
    if runtime == "auto" then detectGracelyRuntime containerEndpoint env fs
    else { result := runtime, fileRead := false }
  let isKubernetes := det.result == "kubernetes"
  { gracelyRuntime := det.result
    gracefulTimeout := timeout
    closePromises := if opts.closing then 1 else 0
    probeRoutes := gracefulServerRoutes isKubernetes livenessEndpoint readinessEndpoint
    detectionFileRead := det.fileRead
    lifecycle := Lifecycle.STARTING
    hasErrorCallback := opts.error
    errorCallbackCalls := [] }

/-- Embedding of the plugin function as seen through the fastify plugin
protocol: the source body never calls `done` with an error, so
construction always completes with the assembled state. -/
def plugin (opts : FastifyGracelyOptions) (env : ProcessEnv) (fs : FileSystem) :
    Except String PluginState :=
  Except.ok (pluginState opts env fs)

/-- The events that drive the lifecycle of a constructed plugin:
`setReady` is fired by the fastify onReady hook (src/index.ts lines
202-204), `shuttingDown` and `shutdown` are the terminal events of the
graceful-server state machine. The `shutdown` event carries the
error-or-none value. -/
inductive GracelyEvent where
  | setReady
  | shuttingDown
  | shutdown (err : Option String)
deriving Repr, DecidableEq

/-- The plugin handler registered for the terminal SHUTDOWN event,
src/index.ts lines 196-200: it invokes the user error callback whenever
one was configured, passing along whatever error value the event
carries. Returns the list of invocations this handler performs. -/
def shutdownHandlerCalls (hasErrorCallback : Bool) (err : Option String) :
    List (Option String) :=
  if hasErrorCallback then [err] else []

/-- Modelled from the spec: the transition function of the lifecycle
state machine (specification section 4.2) combined with the event
handlers the plugin registers in src/index.ts lines 182-204. `setReady`
moves STARTING to READY and is otherwise a no-op; `shuttingDown` moves
STARTING or READY to SHUTTING_DOWN and is idempotent; `shutdown` moves
SHUTTING_DOWN to SHUTDOWN, firing the plugin SHUTDOWN handler with the
error-or-none value, and is terminal. -/
def stepState (s : PluginState) : GracelyEvent → PluginState
  | GracelyEvent.setReady =>
    if s.lifecycle == Lifecycle.STARTING then { s with lifecycle := Lifecycle.READY } else s
  | GracelyEvent.shuttingDown =>
    match s.lifecycle with
    | Lifecycle.STARTING => { s with lifecycle := Lifecycle.SHUTTING_DOWN }
    | Lifecycle.READY => { s with lifecycle := Lifecycle.SHUTTING_DOWN }
    | _ => s
  | GracelyEvent.shutdown err =>
    if s.lifecycle == Lifecycle.SHUTTING_DOWN then
      { s with
        lifecycle := Lifecycle.SHUTDOWN
        errorCallbackCalls := s.errorCallbackCalls ++ shutdownHandlerCalls s.hasErrorCallback err }
    else s

/-- Modelled from the spec: the graceful-server readiness query
`graceful.isReady()` reflects whether the lifecycle state is exactly
READY (specification section 4.2). -/
def isReady (s : PluginState) : Bool :=
  s.lifecycle == Lifecycle.READY

/-- The read-only object the plugin freezes and decorates onto both
contexts, src/index.ts lines 162-169: the resolved runtime and the
result of the readiness query. -/
structure GracelyView where
  runtime : String
  ready : Bool
deriving Repr, DecidableEq

/-- The value returned by the getter installed on the fastify instance,
src/index.ts line 171: the shared frozen gracely object. -/
def gracelyOnInstance (s : PluginState) : GracelyView :=
  { runtime := s.gracelyRuntime, ready := isReady s }

/-- The value returned by the getter installed on every request,
src/index.ts line 172: the same shared frozen gracely object. -/
def gracelyOnRequest (s : PluginState) : GracelyView :=
  { runtime := s.gracelyRuntime, ready := isReady s }

/-- Options record with every field absent and no callbacks: the empty
options object. -/
def defaultOptions : FastifyGracelyOptions :=
  { runtime := Option.none
    timeout := Option.none
    livenessEndpoint := Option.none
    readinessEndpoint := Option.none
    containerEndpoint := Option.none
    ready := false
    close := false
    error := false
    closing := false }

/-- A file system on which every read fails. -/
def emptyFs : FileSystem := fun _ => Option.none

/-- A process environment with neither kubernetes variable defined. -/
def emptyEnv : ProcessEnv :=
  { kubernetesServiceHost := Option.none, k8s := Option.none }

/-! ## Helper lemmas about the detection condition -/

/-- The kubernetes branch condition as a proposition: the service-host
variable holds a non-empty value, or the K8S flag is exactly "true". -/
def KubernetesEnvSet (env : ProcessEnv) : Prop :=
  (∃ v, env.kubernetesServiceHost = Option.some v ∧ v ≠ "") ∨ env.k8s = Option.some "true"

theorem envTruthy_iff (o : Option String) :
    envTruthy o = true ↔ ∃ v, o = Option.some v ∧ v ≠ "" := by
  cases o with
  | none => simp [envTruthy]
  | some v => simp [envTruthy]

theorem k8sCond_iff (env : ProcessEnv) :
    (envTruthy env.kubernetesServiceHost || (env.k8s == Option.some "true")) = true ↔
      KubernetesEnvSet env := by
  rw [Bool.or_eq_true, envTruthy_iff, beq_iff_eq]
  exact Iff.rfl

theorem detect_kubernetes_of_env (ce : String) (env : ProcessEnv) (fs : FileSystem)
    (h : KubernetesEnvSet env) :
    detectGracelyRuntime ce env fs = { result := "kubernetes", fileRead := false } := by
  have hc : (envTruthy env.kubernetesServiceHost || (env.k8s == Option.some "true")) = true :=
    (k8sCond_iff env).mpr h
  simp [detectGracelyRuntime, hc]

theorem detect_result_ne_kubernetes (ce : String) (env : ProcessEnv) (fs : FileSystem)
    (hc : (envTruthy env.kubernetesServiceHost || (env.k8s == Option.some "true")) = false) :
    (detectGracelyRuntime ce env fs).result ≠ "kubernetes" := by
  simp only [detectGracelyRuntime, hc, Bool.false_eq_true, if_false]
  split
  · split
    · split
      · intro h
        exact absurd h (by decide)
      · intro h
        exact absurd h (by decide)
    · intro h
      exact absurd h (by decide)
  · intro h
    exact absurd h (by decide)

/-! ## Claim C1 -/

/-- C1 counterexample: the claim states that a present KUBERNETES_SERVICE_HOST
always yields "kubernetes" with no file read, but a present-but-empty value is
falsy in JavaScript: with the variable present holding the empty string, a
configured marker path and a file containing "docker", detection reads the
file and returns "container". -/
theorem C1_counterexample :
    (({ kubernetesServiceHost := Option.some "", k8s := Option.none } :
        ProcessEnv).kubernetesServiceHost).isSome = true ∧
      detectGracelyRuntime "/proc/1/cgroup"
          { kubernetesServiceHost := Option.some "", k8s := Option.none }
          (fun _ => Option.some "docker")
        = { result := "container", fileRead := true } :=
  ⟨rfl, by decide⟩

/-- C1 (amended): for every configuration with runtime "auto" (absent or
explicitly "auto"), if KUBERNETES_SERVICE_HOST is present with a non-empty
value or K8S is exactly the string "true", the resolved runtime is
"kubernetes" and the container-marker file is never read, regardless of the
configured containerEndpoint or the file contents. -/
theorem C1_auto_env_kubernetes (opts : FastifyGracelyOptions) (env : ProcessEnv)
    (fs : FileSystem)
    (hr : opts.runtime = Option.none ∨ opts.runtime = Option.some "auto")
    (h : KubernetesEnvSet env) :
    (pluginState opts env fs).gracelyRuntime = "kubernetes" ∧
      (pluginState opts env fs).detectionFileRead = false := by
  have hres : opts.runtime.getD "auto" = "auto" := by
    rcases hr with hr | hr <;> simp [hr]
  simp [pluginState, hres,
    detect_kubernetes_of_env (opts.containerEndpoint.getD "/proc/1/cgroup") env fs h]

/-- C1 witness: concrete evaluation of the amended claim with a non-empty
service-host value, a default configuration and a file containing "docker". -/
theorem C1_auto_env_kubernetes_witness :
    (pluginState defaultOptions
        { kubernetesServiceHost := Option.some "10.0.0.1", k8s := Option.none }
        (fun _ => Option.some "docker")).gracelyRuntime = "kubernetes" ∧
      (pluginState defaultOptions
        { kubernetesServiceHost := Option.some "10.0.0.1", k8s := Option.none }
        (fun _ => Option.some "docker")).detectionFileRead = false :=
  C1_auto_env_kubernetes defaultOptions
    { kubernetesServiceHost := Option.some "10.0.0.1", k8s := Option.none }
    (fun _ => Option.some "docker")
    (Or.inl rfl) (Or.inl ⟨"10.0.0.1", rfl, by decide⟩)

/-! ## Claim C2 -/

/-- C2: for every container-marker file whose contents match one of the fixed
case-insensitive container-runtime signatures, with neither kubernetes
environment variable set and a non-empty configured marker path, detection
returns "container" after reading the file. -/
theorem C2_container_signature (ce : String) (env : ProcessEnv) (fs : FileSystem)
    (content : String)
    (h1 : env.kubernetesServiceHost = Option.none) (h2 : env.k8s = Option.none)
    (hce : ce ≠ "") (hfs : fs ce = Option.some content)
    (hsig : matchesContainerSignature content = true) :
    detectGracelyRuntime ce env fs = { result := "container", fileRead := true } := by
  have hcond :
      (envTruthy env.kubernetesServiceHost || (env.k8s == Option.some "true")) = false := by
    rw [h1, h2]; rfl
  simp [detectGracelyRuntime, hcond, bne_iff_ne, hce, hfs, hsig]

/-- C2 witness: concrete evaluation with mixed-case contents
"12:pids:/DOCKER/abcd" read from the default marker path. -/
theorem C2_container_signature_witness :
    detectGracelyRuntime "/proc/1/cgroup" emptyEnv
        (fun p => if p == "/proc/1/cgroup" then Option.some "12:pids:/DOCKER/abcd"
          else Option.none)
      = { result := "container", fileRead := true } :=
  C2_container_signature "/proc/1/cgroup" emptyEnv
    (fun p => if p == "/proc/1/cgroup" then Option.some "12:pids:/DOCKER/abcd"
      else Option.none)
    "12:pids:/DOCKER/abcd" rfl rfl (by decide) (by decide) (by decide)

/-! ## Claim C3 -/

/-- C3: for every configuration whose containerEndpoint is the empty string,
running in auto mode with neither kubernetes environment variable set, the
file system is never touched and the resolved runtime is "local". -/
theorem C3_empty_endpoint_no_read (opts : FastifyGracelyOptions) (env : ProcessEnv)
    (fs : FileSystem)
    (hr : opts.runtime = Option.none ∨ opts.runtime = Option.some "auto")
    (hce : opts.containerEndpoint = Option.some "")
    (h1 : env.kubernetesServiceHost = Option.none) (h2 : env.k8s = Option.none) :
    (pluginState opts env fs).detectionFileRead = false ∧
      (pluginState opts env fs).gracelyRuntime = "local" := by
  have hres : opts.runtime.getD "auto" = "auto" := by
    rcases hr with hr | hr <;> simp [hr]
  have hcond :
      (envTruthy env.kubernetesServiceHost || (env.k8s == Option.some "true")) = false := by
    rw [h1, h2]; rfl
  simp [pluginState, hres, hce, detectGracelyRuntime, hcond]

/-- C3 witness: concrete evaluation with an empty marker path and a file
system on which every path would read as "docker" if it were consulted. -/
theorem C3_empty_endpoint_no_read_witness :
    (pluginState { defaultOptions with containerEndpoint := Option.some "" } emptyEnv
        (fun _ => Option.some "docker")).detectionFileRead = false ∧
      (pluginState { defaultOptions with containerEndpoint := Option.some "" } emptyEnv
        (fun _ => Option.some "docker")).gracelyRuntime = "local" :=
  C3_empty_endpoint_no_read { defaultOptions with containerEndpoint := Option.some "" }
    emptyEnv (fun _ => Option.some "docker") (Or.inl rfl) rfl rfl rfl

/-! ## Claim C4 -/

/-- C4: if reading the container-marker file fails for any reason (the file
system yields no contents at the configured path) and neither kubernetes
environment variable is set, detection swallows the failure and returns
"local"; the embedding is a total function, so no error reaches the caller. -/
theorem C4_read_failure_local (ce : String) (env : ProcessEnv) (fs : FileSystem)
    (h1 : env.kubernetesServiceHost = Option.none) (h2 : env.k8s = Option.none)
    (hfs : fs ce = Option.none) :
    (detectGracelyRuntime ce env fs).result = "local" := by
  have hcond :
      (envTruthy env.kubernetesServiceHost || (env.k8s == Option.some "true")) = false := by
    rw [h1, h2]; rfl
  by_cases hce : ce = ""
  · simp [detectGracelyRuntime, hcond, hce]
  · simp [detectGracelyRuntime, hcond, bne_iff_ne, hce, hfs]

/-- C4 witness: concrete evaluation on a file system where every read fails. -/
theorem C4_read_failure_local_witness :
    (detectGracelyRuntime "/proc/1/cgroup" emptyEnv emptyFs).result = "local" :=
  C4_read_failure_local "/proc/1/cgroup" emptyEnv emptyFs rfl rfl rfl

/-! ## Claim C5 -/

/-- C5 counterexample: with an error callback configured, a clean shutdown
run (ready, shutting down, then the terminal event carrying no error) still
invokes the user error callback, recording one invocation with the none
value, although the claim states the callback is not invoked on a clean
shutdown. -/
theorem C5_counterexample :
    (stepState (stepState (stepState
          (pluginState { defaultOptions with error := true } emptyEnv emptyFs)
          GracelyEvent.setReady) GracelyEvent.shuttingDown)
        (GracelyEvent.shutdown Option.none)).errorCallbackCalls = [Option.none] ∧
      ([Option.none] : List (Option String)) ≠ [] :=
  ⟨by decide, by decide⟩

/-- C5 (amended): when the terminal SHUTDOWN event fires from the
shutting-down state, the user error callback is invoked exactly when an
error callback is configured, receiving the error-or-none value the event
carries; it is invoked even on a clean shutdown with no error. -/
theorem C5_error_callback_iff_configured (s : PluginState) (err : Option String)
    (h : s.lifecycle = Lifecycle.SHUTTING_DOWN) :
    (stepState s (GracelyEvent.shutdown err)).errorCallbackCalls
        = s.errorCallbackCalls ++ (if s.hasErrorCallback then [err] else []) ∧
      ((stepState s (GracelyEvent.shutdown err)).errorCallbackCalls
          ≠ s.errorCallbackCalls ↔ s.hasErrorCallback = true) := by
  have hstep : stepState s (GracelyEvent.shutdown err)
      = { s with
          lifecycle := Lifecycle.SHUTDOWN
          errorCallbackCalls :=
            s.errorCallbackCalls ++ shutdownHandlerCalls s.hasErrorCallback err } := by
    simp [stepState, h]
  constructor
  · rw [hstep]
    simp [shutdownHandlerCalls]
  · rw [hstep]
    cases hcb : s.hasErrorCallback
    · simp [shutdownHandlerCalls]
    · have hne : s.errorCallbackCalls ++ [err] ≠ s.errorCallbackCalls := by
        intro hEq
        have hlen := congrArg List.length hEq
        simp at hlen
      simp [shutdownHandlerCalls, hne]

/-- C5 witness: concrete evaluation of the amended claim on a state in the
shutting-down phase with an error callback configured and a timeout-kind
error value. -/
theorem C5_error_callback_iff_configured_witness :
    (stepState (stepState (pluginState { defaultOptions with error := true } emptyEnv emptyFs)
          GracelyEvent.shuttingDown)
        (GracelyEvent.shutdown (Option.some "timeout"))).errorCallbackCalls
        = (stepState (pluginState { defaultOptions with error := true } emptyEnv emptyFs)
            GracelyEvent.shuttingDown).errorCallbackCalls
          ++ (if (stepState (pluginState { defaultOptions with error := true } emptyEnv emptyFs)
              GracelyEvent.shuttingDown).hasErrorCallback
            then [Option.some "timeout"] else []) ∧
      ((stepState (stepState (pluginState { defaultOptions with error := true } emptyEnv emptyFs)
            GracelyEvent.shuttingDown)
          (GracelyEvent.shutdown (Option.some "timeout"))).errorCallbackCalls
          ≠ (stepState (pluginState { defaultOptions with error := true } emptyEnv emptyFs)
              GracelyEvent.shuttingDown).errorCallbackCalls
        ↔ (stepState (pluginState { defaultOptions with error := true } emptyEnv emptyFs)
            GracelyEvent.shuttingDown).hasErrorCallback = true) :=
  C5_error_callback_iff_configured
    (stepState (pluginState { defaultOptions with error := true } emptyEnv emptyFs)
      GracelyEvent.shuttingDown)
    (Option.some "timeout") (by decide)

/-! ## Claim C6 -/

/-- C6 counterexample: with runtime "none", the readiness query is not a
fixed value: it reports false at construction and true after the ready
event, so real bookkeeping remains active behind it, although the claim
states the query reports a fixed trivial value. -/
theorem C6_counterexample :
    isReady (pluginState { defaultOptions with runtime := Option.some "none" }
        emptyEnv emptyFs) = false ∧
      isReady (stepState
        (pluginState { defaultOptions with runtime := Option.some "none" } emptyEnv emptyFs)
        GracelyEvent.setReady) = true :=
  ⟨by decide, by decide⟩

/-- C6 (amended): for a configuration with runtime "none", no probe routes
are registered and neither the environment variables nor the marker file
are ever inspected (the constructed state is independent of both), but the
readiness query is not a fixed value: it reflects the live lifecycle state
exactly as in local mode, reporting false at construction and true after
the ready event. -/
theorem C6_runtime_none (opts : FastifyGracelyOptions) (env env2 : ProcessEnv)
    (fs fs2 : FileSystem) (hr : opts.runtime = Option.some "none") :
    pluginState opts env fs = pluginState opts env2 fs2 ∧
      (pluginState opts env fs).probeRoutes = [] ∧
      (pluginState opts env fs).detectionFileRead = false ∧
      isReady (pluginState opts env fs) = false ∧
      isReady (stepState (pluginState opts env fs) GracelyEvent.setReady) = true := by
  have h1 : opts.runtime.getD "auto" = "none" := by simp [hr]
  have hna : (("none" : String) == "auto") = false := rfl
  have hnk : (("none" : String) == "kubernetes") = false := rfl
  simp [pluginState, h1, hna, hnk, gracefulServerRoutes, isReady, stepState]

/-- C6 witness: concrete evaluation of the amended claim against two file
systems and environments that disagree everywhere detection could look. -/
theorem C6_runtime_none_witness :
    pluginState { defaultOptions with runtime := Option.some "none" } emptyEnv emptyFs
        = pluginState { defaultOptions with runtime := Option.some "none" }
            { kubernetesServiceHost := Option.some "10.0.0.1", k8s := Option.some "true" }
            (fun _ => Option.some "docker") ∧
      (pluginState { defaultOptions with runtime := Option.some "none" } emptyEnv
        emptyFs).probeRoutes = [] ∧
      (pluginState { defaultOptions with runtime := Option.some "none" } emptyEnv
        emptyFs).detectionFileRead = false ∧
      isReady (pluginState { defaultOptions with runtime := Option.some "none" } emptyEnv
        emptyFs) = false ∧
      isReady (stepState
        (pluginState { defaultOptions with runtime := Option.some "none" } emptyEnv emptyFs)
        GracelyEvent.setReady) = true :=
  C6_runtime_none { defaultOptions with runtime := Option.some "none" } emptyEnv
    { kubernetesServiceHost := Option.some "10.0.0.1", k8s := Option.some "true" }
    emptyFs (fun _ => Option.some "docker") rfl

/-! ## Claim C7 -/

/-- C7: the probe routes are exactly the configured liveness and readiness
paths (defaulting to "/live" and "/ready") when the resolved runtime is
"kubernetes", and empty otherwise; routes exist if and only if the resolved
runtime is "kubernetes", while the programmatic readiness query stays live
for every configuration, flipping to true after the ready event. -/
theorem C7_probe_routes_iff_kubernetes (opts : FastifyGracelyOptions) (env : ProcessEnv)
    (fs : FileSystem) :
    (pluginState opts env fs).probeRoutes
        = (if (pluginState opts env fs).gracelyRuntime == "kubernetes"
            then [opts.livenessEndpoint.getD "/live", opts.readinessEndpoint.getD "/ready"]
            else []) ∧
      ((pluginState opts env fs).probeRoutes ≠ []
        ↔ (pluginState opts env fs).gracelyRuntime = "kubernetes") ∧
      isReady (stepState (pluginState opts env fs) GracelyEvent.setReady) = true := by
  have h1 : (pluginState opts env fs).probeRoutes
      = (if (pluginState opts env fs).gracelyRuntime == "kubernetes"
          then [opts.livenessEndpoint.getD "/live", opts.readinessEndpoint.getD "/ready"]
          else []) := by
    simp [pluginState, gracefulServerRoutes]
  refine ⟨h1, ?_, ?_⟩
  · rw [h1]
    by_cases h : (pluginState opts env fs).gracelyRuntime = "kubernetes" <;> simp [h]
  · simp [pluginState, stepState, isReady]

/-! ## Claim C8 -/

/-- C8 counterexample: the options carrying the unrecognized runtime "bogus"
and the invalid timeout -1 are accepted: plugin construction completes
successfully instead of failing fast. -/
theorem C8_counterexample :
    ("bogus" ∉ (["none", "auto", "local", "container", "kubernetes"] : List String)) ∧
      ((-1 : Int) < 0) ∧
      (plugin
        { defaultOptions with runtime := Option.some "bogus", timeout := Option.some (-1) }
        emptyEnv emptyFs).isOk = true := by
  refine ⟨by decide, by decide, by decide⟩

/-- C8 (amended): plugin construction performs no validation: for any
timeout value and any runtime string outside the recognized set,
construction still succeeds, the timeout is passed through unvalidated, and
the unrecognized runtime is kept verbatim as a non-kubernetes environment
with no probe routes. -/
theorem C8_no_validation (r : String) (t : Int) (opts : FastifyGracelyOptions)
    (env : ProcessEnv) (fs : FileSystem)
    (hr : opts.runtime = Option.some r) (ht : opts.timeout = Option.some t)
    (hrr : r ∉ (["none", "auto", "local", "container", "kubernetes"] : List String)) :
    plugin opts env fs = Except.ok (pluginState opts env fs) ∧
      (pluginState opts env fs).gracelyRuntime = r ∧
      (pluginState opts env fs).gracefulTimeout = t ∧
      (pluginState opts env fs).probeRoutes = [] := by
  have ha : r ≠ "auto" := by
    intro h
    subst h
    exact hrr (by decide)
  have hk : r ≠ "kubernetes" := by
    intro h
    subst h
    exact hrr (by decide)
  refine ⟨rfl, ?_, ?_, ?_⟩
  · simp [pluginState, hr, ha]
  · simp [pluginState, hr, ht, ha]
  · simp [pluginState, hr, ha, hk, gracefulServerRoutes]

/-- C8 witness: concrete evaluation of the amended claim at runtime "bogus"
and timeout -1. -/
theorem C8_no_validation_witness :
    plugin { defaultOptions with runtime := Option.some "bogus", timeout := Option.some (-1) }
        emptyEnv emptyFs
        = Except.ok (pluginState
            { defaultOptions with runtime := Option.some "bogus", timeout := Option.some (-1) }
            emptyEnv emptyFs) ∧
      (pluginState
        { defaultOptions with runtime := Option.some "bogus", timeout := Option.some (-1) }
        emptyEnv emptyFs).gracelyRuntime = "bogus" ∧
      (pluginState
        { defaultOptions with runtime := Option.some "bogus", timeout := Option.some (-1) }
        emptyEnv emptyFs).gracefulTimeout = -1 ∧
      (pluginState
        { defaultOptions with runtime := Option.some "bogus", timeout := Option.some (-1) }
        emptyEnv emptyFs).probeRoutes = [] :=
  C8_no_validation "bogus" (-1)
    { defaultOptions with runtime := Option.some "bogus", timeout := Option.some (-1) }
    emptyEnv emptyFs rfl rfl (by decide)

/-! ## Claim C9 -/

theorem stepState_gracelyRuntime (s : PluginState) (e : GracelyEvent) :
    (stepState s e).gracelyRuntime = s.gracelyRuntime := by
  cases e <;> simp only [stepState] <;> (split <;> rfl)

/-- C9: the instance-level and request-level gracely views are the same
shared value at every reachable state, and the runtime field never changes
after construction: it is preserved by every sequence of lifecycle
events. -/
theorem C9_shared_view_immutable_runtime (s : PluginState) (es : List GracelyEvent) :
    gracelyOnRequest (es.foldl stepState s) = gracelyOnInstance (es.foldl stepState s) ∧
      (es.foldl stepState s).gracelyRuntime = s.gracelyRuntime := by
  constructor
  · rfl
  · induction es generalizing s with
    | nil => rfl
    | cons e es ih =>
      rw [List.foldl_cons]
      exact (ih (stepState s e)).trans (stepState_gracelyRuntime s e)

/-! ## Claim C10 -/

/-- C10: detection resolves to "kubernetes" precisely when the service-host
variable holds some non-empty value or the K8S flag is exactly the
lowercase string "true"; in particular values such as "TRUE", "True" or "1"
for K8S never trigger kubernetes, while any non-empty service-host value
does. -/
theorem C10_kubernetes_trigger_iff (ce : String) (env : ProcessEnv) (fs : FileSystem) :
    (detectGracelyRuntime ce env fs).result = "kubernetes" ↔ KubernetesEnvSet env := by
  constructor
  · intro h
    cases hc : envTruthy env.kubernetesServiceHost || (env.k8s == Option.some "true") with
    | false => exact absurd h (detect_result_ne_kubernetes ce env fs hc)
    | true => exact (k8sCond_iff env).mp hc
  · intro h
    rw [detect_kubernetes_of_env ce env fs h]

end Gracely
